import Mathlib

/-!
Verification development for the dictionary generation & grounding pipeline of
the advanced-dict-agent repository.

The frontend (TypeScript/React) is embedded from the source files:
`services/api.ts`, `pages/DictionaryViewer` (markdown export helpers),
`pages/DataQuality.tsx` (score aggregation, top-issues list),
`components/SchemaExplorer.tsx` (column-quality display),
`components/ChatInterface.tsx` and `components/FloatingAIChatbot.tsx`
(chat send handlers).

The backend pipeline (Metadata Extractor, Quality Analyzer, Dictionary
Assembler, Grounding Engine) is not part of the source tree; those
definitions are modelled from the specification and are marked
`Modelled from the spec:` in their doc comments.

Numbers: JavaScript numbers are modelled as `ℚ` (all values appearing in the
claims are exact decimals), counts as `ℕ`.  `Math.round` agrees with
Mathlib's `round` (round half towards +∞) and `Math.floor` with `Int.floor`.
-/

namespace DictAgent

/-- Clamp a rational score into the interval [0, 100]. -/
def clamp0100 (x : ℚ) : ℚ := max 0 (min 100 x)

/-- Round to one decimal place (the spec's "rounded to one decimal";
`round` rounds half up exactly as JavaScript `toFixed`/`Math.round` do for
the non-negative values occurring here). -/
def round1 (x : ℚ) : ℚ := (round (10 * x) : ℤ) / 10

/- ── Data model (interfaces `ColumnMeta`, `ForeignKey`, `TableMeta`,
      `SchemaMetadata` of the DictionaryViewer page, and
      `DictionaryResponse` of services/api.ts) ───────────────────────── -/

structure ColumnMeta where
  name : String
  data_type : String
  nullable : Bool
  default_value : Option String
deriving Repr, DecidableEq

structure ForeignKey where
  column : String
  references_table : String
  references_column : String
deriving Repr, DecidableEq

structure TableMeta where
  columns : List ColumnMeta
  primary_keys : List String
  foreign_keys : List ForeignKey
  row_count : Option Nat
deriving Repr, DecidableEq

/-- The `SchemaMetadata` interface / the spec's SchemaSnapshot: a mapping from table name
to `TableMeta` (a JSON object, i.e. an ordered association list with
distinct keys) plus a stored table count. -/
structure SchemaSnapshot where
  tables : List (String × TableMeta)
  total_tables : Nat
deriving Repr, DecidableEq

/-- Per-column quality metrics as consumed by the frontend
(`ColumnMetrics` in DataQuality.tsx); every field is optional. -/
structure ColumnMetrics where
  null_count : Option Nat
  null_percentage : Option ℚ
  distinct_count : Option Nat
deriving Repr, DecidableEq

/-- Per-table quality data as consumed by the frontend
(`TableQualityData` in DataQuality.tsx). -/
structure TableQualityData where
  overall_quality_score : Option ℚ
  completeness : Option ℚ
  total_rows : Option Nat
  column_metrics : Option (List (String × ColumnMetrics))
deriving Repr, DecidableEq

/-- AI descriptions for one table (`ai_descriptions` entries). -/
structure TableDescriptions where
  description : String
  column_descriptions : List (String × String)
deriving Repr, DecidableEq

/-- The Dictionary read model (`DictionaryResponse` of services/api.ts,
§6 of the spec), with the per-run error log the spec attaches to the
dictionary metadata (§7). -/
structure Dictionary where
  id : String
  connection_id : String
  database_name : String
  total_tables : Nat
  total_columns : Nat
  generated_at : Nat
  metadata : SchemaSnapshot
  ai_descriptions : List (String × TableDescriptions)
  quality_metrics : List (String × TableQualityData)
  error_log : List (String × String)
deriving Repr, DecidableEq

/-- Modelled from the spec: the Dictionary Assembler (§4.5) is not under
src/ (only its read-model type `DictionaryResponse` and callers are).
"Pure merge: given a SchemaSnapshot, a quality map, and a description map
(...) produce one Dictionary with totals recomputed from the snapshot (not
trusted from inputs)."  The stored `snap.total_tables` input field is
deliberately not consulted. -/
def assembleDictionary (id connection_id database_name : String)
    (generated_at : Nat) (snap : SchemaSnapshot)
    (quality : List (String × TableQualityData))
    (descs : List (String × TableDescriptions))
    (error_log : List (String × String)) : Dictionary :=
  { id := id
    connection_id := connection_id
    database_name := database_name
    generated_at := generated_at
    total_tables := snap.tables.length
    total_columns := (snap.tables.map (fun t => t.2.columns.length)).sum
    metadata := snap
    ai_descriptions := descs
    quality_metrics := quality
    error_log := error_log }

/- ── Quality Analyzer (§4.3) ─────────────────────────────────────────── -/

/-- Modelled from the spec: "Null percentage = null_count / sampled_count
× 100, rounded to one decimal" (§4.3; the Quality Analyzer implementation
is not under src/). -/
def nullPercentage (null_count sampled_count : Nat) : ℚ :=
  if sampled_count = 0 then 0
  else round1 ((null_count : ℚ) / (sampled_count : ℚ) * 100)

/-- One analyzed column: sampling results for null/distinct counts. -/
structure AnalyzedColumn where
  name : String
  null_count : Nat
  distinct_count : Nat
deriving Repr, DecidableEq

/-- Sampling input to the Quality Analyzer for one table:
the number of sampled/counted rows, per-column counts, and the distinct
count over the primary-key column (`none` when the table has no PK). -/
structure TableSample where
  sampled_count : Nat
  columns : List AnalyzedColumn
  pk_distinct : Option Nat
deriving Repr, DecidableEq

/-- The null percentage of one analyzed column of a sample. -/
def colNullPct (s : TableSample) (c : AnalyzedColumn) : ℚ :=
  nullPercentage c.null_count s.sampled_count

/-- Modelled from the spec: "Completeness for a table = 100 − (average
column null_percentage across analyzed columns)"; "A table with zero rows
yields completeness = 100"; "Scores are clamped to [0, 100]" (§4.3). -/
def completeness (s : TableSample) : ℚ :=
  if s.sampled_count = 0 ∨ s.columns = [] then 100
  else clamp0100
    (100 - (s.columns.map (colNullPct s)).sum / (s.columns.length : ℚ))

/-- Modelled from the spec: "a uniqueness signal derived from primary-key
column distinct-ratio (...) 100 if PK is fully unique else scaled by
distinct/total" (§4.3). -/
def uniquenessSignal (s : TableSample) : ℚ :=
  match s.pk_distinct with
  | none => 100
  | some d =>
    if d = s.sampled_count then 100
    else if s.sampled_count = 0 then 100
    else 100 * (d : ℚ) / (s.sampled_count : ℚ)

/-- The fraction of analyzed columns whose null percentage exceeds 50%. -/
def highNullFraction (s : TableSample) : ℚ :=
  if s.columns = [] then 0
  else ((s.columns.filter (fun c => decide (50 < colNullPct s c))).length : ℚ)
    / (s.columns.length : ℚ)

/-- Modelled from the spec: "a penalty term for columns whose
null_percentage exceeds 50% (weight 0.15, inverted)" (§4.3): the inverted
penalty is 100 when no column is more than half null and decreases with
the fraction of such columns. -/
def highNullPenaltyInverted (s : TableSample) : ℚ :=
  100 * (1 - highNullFraction s)

/-- Modelled from the spec: "overall_quality_score formula (documented,
not a free parameter): weighted average of completeness (weight 0.6), a
uniqueness signal (...) (weight 0.25), and a penalty term (...) (weight
0.15, inverted). Scores are clamped to [0, 100]" (§4.3). -/
def overallQualityScore (s : TableSample) : ℚ :=
  clamp0100 (0.6 * completeness s + 0.25 * uniquenessSignal s
    + 0.15 * highNullPenaltyInverted s)

/-- The full per-table analyzer output (the spec's TableQuality). -/
structure TableQuality where
  overall_quality_score : ℚ
  completeness : ℚ
  total_rows : Nat
  column_metrics : List (String × ColumnMetrics)
deriving Repr, DecidableEq

/-- Modelled from the spec: the Quality Analyzer's per-table output
(§4.3, data model §3): rolls the sampling results into the TableQuality
record. -/
def analyzeTable (s : TableSample) : TableQuality :=
  { overall_quality_score := overallQualityScore s
    completeness := completeness s
    total_rows := s.sampled_count
    column_metrics := s.columns.map (fun c =>
      (c.name,
        { null_count := some c.null_count
          null_percentage := some (colNullPct s c)
          distinct_count := some c.distinct_count })) }

/- ── DataQuality.tsx: quality dashboard computations ─────────────────── -/

/-- JavaScript `Number.prototype.toFixed(1)` for the non-negative decimal
percentages occurring here: one digit after the decimal point, ties
rounded up (exactly what `toFixed` does for these values). -/
def toFixed1 (q : ℚ) : String :=
  toString ((round (10 * q) : ℤ) / 10) ++ "." ++ toString ((round (10 * q) : ℤ) % 10)

/-- The dictionary's `quality_metrics` JSON object as the dashboard reads
it: an ordered map from table name to a possibly-null `TableQualityData`. -/
abbrev QualityMetrics := List (String × Option TableQualityData)

/-- DataQuality.tsx line 136: the per-table scores that are present
(`tableNames.map(t => qualityMetrics![t]?.overall_quality_score ?? null)
.filter(s => s !== null)`). -/
def tableScores (qm : QualityMetrics) : List ℚ :=
  qm.filterMap (fun p => p.2.bind (fun tq => tq.overall_quality_score))

/-- DataQuality.tsx line 137: overall score = `tableScores.length > 0 ?
Math.round(sum / length) : null`. -/
def overallScore (qm : QualityMetrics) : Option ℤ :=
  if 0 < (tableScores qm).length then
    some (round ((tableScores qm).sum / ((tableScores qm).length : ℚ)))
  else none

/-- DataQuality.tsx line 310: the rendered overall score,
`overallScore !== null ? overallScore + "%" : "N/A"`. -/
def displayedOverallScore (qm : QualityMetrics) : String :=
  match overallScore qm with
  | some v => toString v ++ "%"
  | none => "N/A"

/-- One aggregated column issue (DataQuality.tsx lines 148-165);
`critical` is true exactly when the severity computed there is
`"critical"`. -/
structure Issue where
  column : String
  issue : String
  count : Nat
  critical : Bool
deriving Repr, DecidableEq

/-- DataQuality.tsx lines 159-164: the issue pushed for a column with
positive null count. -/
def mkIssue (tableName colName : String) (cm : ColumnMetrics) (n : Nat) : Issue :=
  { column := tableName ++ "." ++ colName
    issue := "Null values ("
      ++ (match cm.null_percentage with
          | some q => toFixed1 q
          | none => "undefined") ++ "%)"
    count := n
    critical := decide (50 < cm.null_percentage.getD 0) }

/-- DataQuality.tsx lines 155-165: the issues contributed by one table's
column metrics, in traversal order (`if (cm.null_count && cm.null_count >
0)` pushes an issue; 0 and undefined are both falsy). -/
def columnIssues (tableName : String)
    (cms : List (String × ColumnMetrics)) : List Issue :=
  cms.filterMap (fun p =>
    match p.2.null_count with
    | some n => if 0 < n then some (mkIssue tableName p.1 p.2 n) else none
    | none => none)

/-- DataQuality.tsx lines 148-169: aggregation of null issues across all
tables (tables with a null entry or without `column_metrics` contribute
nothing). -/
def aggregateColumnIssues (qm : QualityMetrics) : List Issue :=
  (qm.map (fun p =>
    match p.2 with
    | some tq =>
      match tq.column_metrics with
      | some cms => columnIssues p.1 cms
      | none => []
    | none => [])).flatten

/-- DataQuality.tsx line 171: `sort((a, b) => b.count - a.count)` — a
stable sort by count descending (ES2019 `Array.prototype.sort` is stable;
a stable insertion sort has the same observable behaviour). -/
def sortIssues (l : List Issue) : List Issue :=
  List.insertionSort (fun a b => b.count ≤ a.count) l

/-- DataQuality.tsx lines 171-172: sort by count descending, retain the
first 10 (`slice(0, 10)`). -/
def topIssues (qm : QualityMetrics) : List Issue :=
  (sortIssues (aggregateColumnIssues qm)).take 10

/- ── SchemaExplorer.tsx: column-level quality display ────────────────── -/

/-- SchemaExplorer.tsx lines 358-377: the Data Quality tab renders, for
the first three columns (`columns.slice(0, 3)`), a null count
`Math.floor(Math.random() * 100)` and a distinct count
`Math.floor(Math.random() * 10000)`.  The random source is modelled as a
stream `rand : ℕ → ℚ` of draws from [0, 1), consumed in display order. -/
def explorerColumnQuality (rand : ℕ → ℚ) (cols : List String) : List (ℤ × ℤ) :=
  (cols.take 3).enum.map (fun p =>
    (⌊rand (2 * p.1) * 100⌋, ⌊rand (2 * p.1 + 1) * 10000⌋))

/-- Everything the two quality surfaces display: the dashboard's overall
score (DataQuality.tsx) and the explorer tab's per-column null/distinct
figures (SchemaExplorer.tsx). -/
structure QualityDisplays where
  overall : Option ℤ
  overallText : String
  explorerColumns : List (ℤ × ℤ)
deriving Repr, DecidableEq

/-- The combined rendering of quality metrics, with the random source
made explicit. -/
def renderQuality (qm : QualityMetrics) (cols : List String)
    (rand : ℕ → ℚ) : QualityDisplays :=
  { overall := overallScore qm
    overallText := displayedOverallScore qm
    explorerColumns := explorerColumnQuality rand cols }

/- ── Grounding Engine: context truncation (§4.6) ─────────────────────── -/

/-- One table as a candidate for the chat context window: its metadata,
its quality score, and its serialized size in the context. -/
structure ContextTable where
  name : String
  meta : TableMeta
  quality_score : ℚ
  size : Nat
deriving Repr, DecidableEq

/-- Total serialized size of a list of context tables. -/
def totalSize (ts : List ContextTable) : Nat := (ts.map (fun t => t.size)).sum

/-- Drop tables from the front of an ascending-by-score list until the
remainder fits the budget; returns (kept, dropped). -/
def dropUntilFits (budget : Nat) : List ContextTable → List ContextTable × List ContextTable
  | [] => ([], [])
  | t :: rest =>
    if totalSize (t :: rest) ≤ budget then (t :: rest, [])
    else ((dropUntilFits budget rest).1, t :: (dropUntilFits budget rest).2)

/-- Modelled from the spec: the Grounding Engine (§4.6) is not under src/.
"when the full dictionary exceeds the budget, truncate by dropping the
lowest-quality-score (...) tables first, never truncating mid-table":
sort ascending by quality score and drop whole tables from the low end
until the rest fits the budget.  Returns (kept, dropped). -/
def truncateContext (budget : Nat) (ts : List ContextTable) :
    List ContextTable × List ContextTable :=
  dropUntilFits budget
    (List.insertionSort (fun a b => a.quality_score ≤ b.quality_score) ts)

/- ── Generation failure policy (§4.2, §7) ────────────────────────────── -/

/-- Per-column sampling result used during generation. -/
structure ColStats where
  null_count : Nat
  distinct_count : Nat
deriving Repr, DecidableEq

/-- The extraction/analysis outcome for one table that was successfully
described: its metadata and the per-column sampling outcomes (a failing
column carries its error). -/
structure TableRun where
  meta : TableMeta
  colStats : List (String × Except String ColStats)
deriving Repr

/-- Column metrics degraded to "unknown" (every field absent). -/
def unknownMetrics : ColumnMetrics :=
  { null_count := none, null_percentage := none, distinct_count := none }

/-- Modelled from the spec: "Any per-column sampling failure degrades that
column's metrics to 'unknown' rather than failing the table" (§4.3). -/
def qualityFromRun (tr : TableRun) : TableQualityData :=
  { overall_quality_score := none
    completeness := none
    total_rows := none
    column_metrics := some (tr.colStats.map (fun p =>
      (p.1,
        match p.2 with
        | Except.ok s =>
          { null_count := some s.null_count
            null_percentage := none
            distinct_count := some s.distinct_count }
        | Except.error _ => unknownMetrics))) }

/-- The column-level errors of one table, tagged `table.column`. -/
def columnErrors (tableName : String)
    (cols : List (String × Except String ColStats)) : List (String × String) :=
  cols.filterMap (fun p =>
    match p.2 with
    | Except.error e => some (tableName ++ "." ++ p.1, e)
    | Except.ok _ => none)

/-- The tables whose extraction/analysis succeeded, in input order. -/
def okTables (results : List (String × Except String TableRun)) :
    List (String × TableRun) :=
  results.filterMap (fun p =>
    match p.2 with
    | Except.ok tr => some (p.1, tr)
    | Except.error _ => none)

/-- The per-table errors of the failed tables, in input order. -/
def tableErrors (results : List (String × Except String TableRun)) :
    List (String × String) :=
  results.filterMap (fun p =>
    match p.2 with
    | Except.error e => some (p.1, e)
    | Except.ok _ => none)

/-- All column-level errors of the succeeded tables. -/
def colErrorsAll (results : List (String × Except String TableRun)) :
    List (String × String) :=
  ((okTables results).map (fun p => columnErrors p.1 p.2.colStats)).flatten

/-- Modelled from the spec: the generation pipeline's failure policy
(§4.2, §7) is not under src/.  "failures local to one table/column degrade
that unit's data and are recorded in a per-run error log attached to the
Dictionary's metadata; they never abort the whole generation unless *zero*
tables succeed"; "adapter-level table failures are skipped with a
per-table error recorded; if zero tables succeed, the whole extraction
fails." -/
def runGeneration (database_name : String)
    (results : List (String × Except String TableRun)) : Except String Dictionary :=
  if (okTables results).isEmpty then
    Except.error "extraction failed: zero tables succeeded"
  else
    Except.ok (assembleDictionary "dict" "conn" database_name 0
      { tables := (okTables results).map (fun p => (p.1, p.2.meta))
        total_tables := (okTables results).length }
      ((okTables results).map (fun p => (p.1, qualityFromRun p.2)))
      []
      (tableErrors results ++ colErrorsAll results))

/- ── Markdown export (DictionaryViewer exportMarkdown) ───────────────── -/

/-- One column row of the mock dictionary structure fed to the export
helpers (DictionaryViewer second variant). -/
structure MdColumn where
  column : String
  colType : String
  nullable : Bool
  description : String
deriving Repr, DecidableEq

/-- One markdown table row for a column:
``| ${col.column} | ${col.type} | ${nullable ? "Yes" : "No"} | ${col.description} |``. -/
def mdRow (c : MdColumn) : String :=
  "| " ++ c.column ++ " | " ++ c.colType ++ " | "
    ++ (if c.nullable then "Yes" else "No") ++ " | " ++ c.description ++ " |\n"

/-- The fixed markdown column-table header emitted for every table. -/
def mdTableHeader : String :=
  "| Column | Type | Nullable | Description |\n|--------|------|----------|-------------|\n"

/-- The `exportMarkdown` helper (DictionaryViewer, lines 528-547): starts from
"# Data Dictionary", then for every `[table, columns]` entry appends a
`## table` heading, the column-table header, one row per column, and a
blank line.  The `forEach` accumulation is mirrored by nested folds. -/
def exportMarkdown (data : List (String × List MdColumn)) : String :=
  data.foldl (fun md t =>
    (t.2.foldl (fun md c => md ++ mdRow c)
      (md ++ "## " ++ t.1 ++ "\n\n" ++ mdTableHeader)) ++ "\n")
    "# Data Dictionary\n\n"

/-- Concatenation of a list of strings (used to state the sectioned
structure of the export). -/
def strConcat (l : List String) : String := l.foldr (fun a b => a ++ b) ""

/- ── Chat send handlers ──────────────────────────────────────────────── -/

/-- A chat message as kept in component state (ids distinguish the fixed
initial greeting, which has id "1"). -/
structure Msg where
  id : String
  role : String
  content : String
deriving Repr, DecidableEq

/-- The chat-query API request body (`ChatQuery` in services/api.ts). -/
structure ChatQuery where
  dictionary_id : String
  question : String
  conversation_history : List (String × String)
deriving Repr, DecidableEq

/-- Conversation history sent with a query: all messages except the
initial greeting, projected to role/content. -/
def historyOf (msgs : List Msg) : List (String × String) :=
  (msgs.filter (fun m => m.id ≠ "1")).map (fun m => (m.role, m.content))

/-- ChatInterface.tsx line 126: the fixed guidance message appended when
no dictionary is selected. -/
def ciGuidance : String :=
  "Please select a dictionary first. If you haven\x27t generated one yet, go to the Explorer page to generate a data dictionary."

/-- FloatingAIChatbot.tsx line 96: the fixed guidance message appended
when no dictionary is available. -/
def fabGuidance : String :=
  "I don\x27t have a data dictionary to work with yet. Please go to the Explorer page to generate one first, then I can answer questions about your database!"

/-- The component state consulted by ChatInterface's `handleSendMessage`;
`selectedDictId` is a string, empty when nothing is selected. -/
structure CIState where
  messages : List Msg
  inputValue : String
  isLoading : Bool
  selectedDictId : String
deriving Repr, DecidableEq

/-- The component state consulted by FloatingAIChatbot's
`handleSendMessage`; `dictionaryId` is `string | null`. -/
structure FABState where
  messages : List Msg
  inputValue : String
  isLoading : Bool
  dictionaryId : Option String
deriving Repr, DecidableEq

/-- JavaScript falsiness of `dictionaryId : string | null`
(`!dictionaryId` is true for both `null` and `""`). -/
def noDict (d : Option String) : Bool :=
  match d with
  | none => true
  | some s => s.isEmpty

/-- ChatInterface.tsx `handleSendMessage` (lines 117-158), reduced to its
observable effect: the resulting message list and the chat-query request
issued, if any.  Guards in source order: empty/whitespace input or a
pending request is a no-op; with no dictionary selected the guidance
message is appended and the handler returns; otherwise the user message
is appended and a query with the selected dictionary id is sent. -/
def ciHandleSendMessage (st : CIState) (msgId : String) : List Msg × Option ChatQuery :=
  if st.inputValue.trim = "" ∨ st.isLoading then (st.messages, none)
  else if st.selectedDictId = "" then
    (st.messages ++ [{ id := msgId, role := "assistant", content := ciGuidance }], none)
  else
    (st.messages ++ [{ id := msgId, role := "user", content := st.inputValue }],
      some { dictionary_id := st.selectedDictId
             question := st.inputValue
             conversation_history := historyOf st.messages })

/-- FloatingAIChatbot.tsx `handleSendMessage` (lines 73-113), reduced the
same way.  Here the user message is appended first; then, with no
dictionary loaded, the guidance message is appended and the handler
returns; otherwise the query is sent. -/
def fabHandleSendMessage (st : FABState) (msgId msgId2 : String) : List Msg × Option ChatQuery :=
  if st.inputValue.trim = "" ∨ st.isLoading then (st.messages, none)
  else
    let msgs := st.messages ++ [{ id := msgId, role := "user", content := st.inputValue }]
    if noDict st.dictionaryId then
      (msgs ++ [{ id := msgId2, role := "assistant", content := fabGuidance }], none)
    else
      (msgs,
        some { dictionary_id := st.dictionaryId.getD ""
               question := st.inputValue
               conversation_history := historyOf st.messages })

/- ── Concrete inputs used in scenario and witness statements ─────────── -/

/-- A table with no columns, used where metadata content is irrelevant. -/
def emptyTableMeta : TableMeta :=
  { columns := [], primary_keys := [], foreign_keys := [], row_count := none }

/-- A small analyzed sample: 4 rows, two columns with 1 and 3 nulls, a
fully unique primary key. -/
def sampleOrders : TableSample :=
  { sampled_count := 4
    columns := [⟨"a", 1, 4⟩, ⟨"b", 3, 2⟩]
    pk_distinct := some 4 }

/-- The spec's §8 scenario data: a `discount` column that is 1,205/2,000
null (stored percentage 60.3), next to a clean `id` column and a `note`
column with 1,500 nulls. -/
def qmScenario : QualityMetrics :=
  [("sales", some
    { overall_quality_score := some 82
      completeness := some 70
      total_rows := some 2000
      column_metrics := some
        [("id", ⟨some 0, some 0, some 2000⟩),
         ("discount", ⟨some 1205, some (603 / 10), some 17⟩),
         ("note", ⟨some 1500, some 75, some 3⟩)] })]

/-- A random stream that always draws 0. -/
def randZero : ℕ → ℚ := fun _ => 0

/-- A random stream that always draws 1/2. -/
def randHalf : ℕ → ℚ := fun _ => 1 / 2

/-- Three context tables of sizes 60/50/30 and scores 90/40/70. -/
def ctxTables : List ContextTable :=
  [{ name := "t1", meta := emptyTableMeta, quality_score := 90, size := 60 },
   { name := "t2", meta := emptyTableMeta, quality_score := 40, size := 50 },
   { name := "t3", meta := emptyTableMeta, quality_score := 70, size := 30 }]

/-- Generation results where table `orders` succeeds (one failing column)
and table `products` fails. -/
def genResults : List (String × Except String TableRun) :=
  [("orders", Except.ok
     { meta := emptyTableMeta
       colStats := [("qty", Except.ok ⟨0, 5⟩),
                    ("price", Except.error "sampling timeout")] }),
   ("products", Except.error "describe failed")]

/-- Quality metrics with two scored tables (80 and 91) and one null
entry; the dashboard mean is round(85.5) = 86. -/
def qmTwoTables : QualityMetrics :=
  [("t", some { overall_quality_score := some 80, completeness := none,
                total_rows := none, column_metrics := none }),
   ("u", some { overall_quality_score := some 91, completeness := none,
                total_rows := none, column_metrics := none }),
   ("v", none)]

/-- The fixed initial greeting message (id "1"). -/
def greeting : Msg := { id := "1", role := "assistant", content := "hello" }

/-- ChatInterface state with a typed message but no selected dictionary. -/
def ciNoDictState : CIState :=
  { messages := [greeting], inputValue := "what tables exist?",
    isLoading := false, selectedDictId := "" }

/-- FloatingAIChatbot state with a typed message but no dictionary. -/
def fabNoDictState : FABState :=
  { messages := [greeting], inputValue := "what tables exist?",
    isLoading := false, dictionaryId := none }

/- ════════════════════════ THEOREMS ═══════════════════════════════════ -/

/- ── Shared helper lemmas ────────────────────────────────────────────── -/

theorem clamp0100_nonneg (x : ℚ) : 0 ≤ clamp0100 x := le_max_left 0 _

theorem clamp0100_le_100 (x : ℚ) : clamp0100 x ≤ 100 :=
  max_le (by norm_num) (min_le_left _ _)

theorem clamp0100_eq_self {x : ℚ} (h0 : 0 ≤ x) (h1 : x ≤ 100) :
    clamp0100 x = x := by
  unfold clamp0100
  rw [min_eq_right h1, max_eq_right h0]

theorem completeness_nonneg (s : TableSample) : 0 ≤ completeness s := by
  unfold completeness
  split
  · norm_num
  · exact clamp0100_nonneg _

theorem completeness_le_100 (s : TableSample) : completeness s ≤ 100 := by
  unfold completeness
  split
  · norm_num
  · exact clamp0100_le_100 _

theorem highNullFraction_nonneg (s : TableSample) : 0 ≤ highNullFraction s := by
  unfold highNullFraction
  split
  · norm_num
  · positivity

theorem highNullFraction_le_one (s : TableSample) : highNullFraction s ≤ 1 := by
  unfold highNullFraction
  split
  · norm_num
  · next h =>
    rw [div_le_one]
    · exact_mod_cast List.length_filter_le _ _
    · exact_mod_cast List.length_pos.mpr h

/- ── C1 ──────────────────────────────────────────────────────────────── -/

/-- C1: the Dictionary Assembler recomputes `total_tables` as the number
of tables in the snapshot and `total_columns` as the sum of the tables'
column counts, ignoring the snapshot's stored `total_tables` input field:
for any claimed input count the assembled totals agree with the
recomputed values. -/
theorem dictionary_totals_recomputed (id cid db : String) (ts : Nat)
    (snap : SchemaSnapshot) (q : List (String × TableQualityData))
    (d : List (String × TableDescriptions)) (el : List (String × String)) :
    (assembleDictionary id cid db ts snap q d el).total_tables
        = (assembleDictionary id cid db ts snap q d el).metadata.tables.length
      ∧ (assembleDictionary id cid db ts snap q d el).total_columns
        = ((assembleDictionary id cid db ts snap q d el).metadata.tables.map
            (fun t => t.2.columns.length)).sum
      ∧ ∀ claimed : Nat,
          (assembleDictionary id cid db ts ⟨snap.tables, claimed⟩ q d el).total_tables
              = snap.tables.length
            ∧ (assembleDictionary id cid db ts ⟨snap.tables, claimed⟩ q d el).total_columns
              = (snap.tables.map (fun t => t.2.columns.length)).sum :=
  ⟨rfl, rfl, fun _ => ⟨rfl, rfl⟩⟩

/- ── C2 ──────────────────────────────────────────────────────────────── -/

/-- C2: for a table with a primary key and a non-empty sample, the
overall quality score equals the weighted average of completeness (weight
0.6), the primary-key uniqueness signal (weight 0.25; 100 when the PK is
fully unique, else scaled by distinct/total) and the inverted penalty for
columns more than 50% null (weight 0.15); the clamp is the identity here
because each term lies in [0, 100]. -/
theorem overall_quality_score_formula (s : TableSample) (d : Nat)
    (hpk : s.pk_distinct = some d) (hn : 0 < s.sampled_count)
    (hd : d ≤ s.sampled_count) :
    overallQualityScore s
      = 0.6 * completeness s
        + 0.25 * (if d = s.sampled_count then (100 : ℚ)
            else 100 * (d : ℚ) / (s.sampled_count : ℚ))
        + 0.15 * (100 * (1 - highNullFraction s)) := by
  have hU : uniquenessSignal s
      = if d = s.sampled_count then (100 : ℚ)
        else 100 * (d : ℚ) / (s.sampled_count : ℚ) := by
    unfold uniquenessSignal
    rw [hpk]
    by_cases h : d = s.sampled_count
    · simp [h]
    · simp [h, hn.ne']
  have hC0 := completeness_nonneg s
  have hC1 := completeness_le_100 s
  have hU0 : 0 ≤ uniquenessSignal s := by
    rw [hU]
    split
    · norm_num
    · positivity
  have hU1 : uniquenessSignal s ≤ 100 := by
    rw [hU]
    split
    · norm_num
    · rw [div_le_iff₀ (by exact_mod_cast hn)]
      have : (d : ℚ) ≤ (s.sampled_count : ℚ) := by exact_mod_cast hd
      nlinarith
  have hF0 := highNullFraction_nonneg s
  have hF1 := highNullFraction_le_one s
  unfold overallQualityScore highNullPenaltyInverted
  rw [clamp0100_eq_self (by nlinarith) (by nlinarith), hU]

/- ── C3 ──────────────────────────────────────────────────────────────── -/

/-- C3: every TableQuality entry produced by the analyzer has
`overall_quality_score` and `completeness` in [0, 100] (both are clamped
into the interval). -/
theorem quality_scores_in_range (s : TableSample) :
    0 ≤ (analyzeTable s).overall_quality_score
      ∧ (analyzeTable s).overall_quality_score ≤ 100
      ∧ 0 ≤ (analyzeTable s).completeness
      ∧ (analyzeTable s).completeness ≤ 100 :=
  ⟨clamp0100_nonneg _, clamp0100_le_100 _, completeness_nonneg s,
    completeness_le_100 s⟩

/-- Witness for C2: the formula theorem applied to the concrete sample
`sampleOrders` (4 rows, PK fully unique). -/
theorem overall_quality_score_formula_witness :
    sampleOrders.pk_distinct = some 4 ∧ 0 < sampleOrders.sampled_count
      ∧ 4 ≤ sampleOrders.sampled_count
      ∧ overallQualityScore sampleOrders
        = 0.6 * completeness sampleOrders
          + 0.25 * (if 4 = sampleOrders.sampled_count then (100 : ℚ)
              else 100 * ((4 : ℕ) : ℚ) / (sampleOrders.sampled_count : ℚ))
          + 0.15 * (100 * (1 - highNullFraction sampleOrders)) :=
  ⟨rfl, by decide, by decide,
    overall_quality_score_formula sampleOrders 4 rfl (by decide) (by decide)⟩

/- ── C4 ──────────────────────────────────────────────────────────────── -/

/-- C4: the aggregated issue list contains exactly the columns with
positive null count; the top-issues list is a maximal-count-first stable
ordering of it with at most the first 10 retained, and each issue's text
reports the column's stored null percentage to one decimal.  In the §8
scenario, `discount` (1,205/2,000 null) has null percentage 60.3 and
appears in the list ranked below the 1,500-null column `note`. -/
theorem top_issues_spec :
    (∀ qm : QualityMetrics,
        List.Pairwise (fun a b : Issue => b.count ≤ a.count) (topIssues qm)
        ∧ (topIssues qm).length ≤ 10
        ∧ (∃ rest, sortIssues (aggregateColumnIssues qm) = topIssues qm ++ rest)
        ∧ (sortIssues (aggregateColumnIssues qm)).Perm (aggregateColumnIssues qm)
        ∧ (∀ i : Issue, i ∈ aggregateColumnIssues qm ↔
            ∃ t tq cms c cm n, (t, some tq) ∈ qm ∧ tq.column_metrics = some cms
              ∧ (c, cm) ∈ cms ∧ cm.null_count = some n ∧ 0 < n
              ∧ i = mkIssue t c cm n))
      ∧ nullPercentage 1205 2000 = 603 / 10
      ∧ topIssues qmScenario
        = [{ column := "sales.note", issue := "Null values (75.0%)",
             count := 1500, critical := true },
           { column := "sales.discount", issue := "Null values (60.3%)",
             count := 1205, critical := true }] := by
  refine ⟨fun qm => ⟨?_, ?_, ?_, ?_, ?_⟩, ?_, ?_⟩
  · haveI : IsTotal Issue (fun a b => b.count ≤ a.count) :=
      ⟨fun a b => le_total b.count a.count⟩
    haveI : IsTrans Issue (fun a b => b.count ≤ a.count) :=
      ⟨fun _ _ _ h1 h2 => le_trans h2 h1⟩
    exact List.Pairwise.sublist (List.take_sublist 10 _)
      (List.sorted_insertionSort _ (aggregateColumnIssues qm))
  · simp [topIssues, List.length_take]
  · exact ⟨(sortIssues (aggregateColumnIssues qm)).drop 10,
      (List.take_append_drop 10 _).symm⟩
  · exact List.perm_insertionSort _ _
  · intro i
    unfold aggregateColumnIssues
    simp only [List.mem_flatten, List.mem_map]
    constructor
    · rintro ⟨L, ⟨⟨t, otq⟩, hp, rfl⟩, hiL⟩
      cases otq with
      | none => simp at hiL
      | some tq =>
        cases hcm : tq.column_metrics with
        | none => simp only [hcm] at hiL; simp at hiL
        | some cms =>
          simp only [hcm] at hiL
          unfold columnIssues at hiL
          simp only [List.mem_filterMap] at hiL
          obtain ⟨⟨c, cm⟩, hc, heq⟩ := hiL
          cases hnc : cm.null_count with
          | none => simp only [hnc] at heq; exact absurd heq (by simp)
          | some n =>
            simp only [hnc] at heq
            by_cases hpos : 0 < n
            · rw [if_pos hpos] at heq
              exact ⟨t, tq, cms, c, cm, n, hp, hcm, hc, hnc, hpos,
                (Option.some.inj heq).symm⟩
            · rw [if_neg hpos] at heq
              exact absurd heq (by simp)
    · rintro ⟨t, tq, cms, c, cm, n, hp, hcm, hc, hnc, hpos, rfl⟩
      refine ⟨columnIssues t cms, ⟨⟨t, some tq⟩, hp, by simp [hcm]⟩, ?_⟩
      unfold columnIssues
      simp only [List.mem_filterMap]
      exact ⟨(c, cm), hc, by simp [hnc, hpos]⟩
  · unfold nullPercentage round1
    rw [if_neg (by norm_num), round_eq]
    norm_num
  · have h1 : round ((10 : ℚ) * (603 / 10)) = (603 : ℤ) := by
      rw [round_eq]; norm_num
    have h2 : round ((10 : ℚ) * 75) = (750 : ℤ) := by
      rw [round_eq]; norm_num
    have h3 : decide ((50 : ℚ) < 603 / 10) = true := by
      rw [decide_eq_true_eq]; norm_num
    have h4 : decide ((50 : ℚ) < 75) = true := by
      rw [decide_eq_true_eq]; norm_num
    simp only [topIssues, sortIssues, aggregateColumnIssues, qmScenario,
      columnIssues, mkIssue, toFixed1, List.map, List.flatten, List.filterMap,
      Option.getD, List.insertionSort, List.orderedInsert, List.take,
      List.append_nil, h1, h2, h3, h4]
    norm_num
    decide

/- ── C5 ──────────────────────────────────────────────────────────────── -/

/-- C5 counterexample: the claim "no displayed quality metric is taken
from a random source" is false at a concrete input: SchemaExplorer's
column-quality display renders different null/distinct figures for two
different random streams over the same (empty) quality metrics, because
it draws them with `Math.random()`. -/
theorem displayed_metrics_random_counterexample :
    renderQuality [] ["id"] randZero ≠ renderQuality [] ["id"] randHalf := by
  have hov : overallScore ([] : QualityMetrics) = none := rfl
  have hz : renderQuality [] ["id"] randZero
      = { overall := none, overallText := "N/A", explorerColumns := [(0, 0)] } := by
    simp only [renderQuality, displayedOverallScore, hov, explorerColumnQuality,
      randZero, List.take, List.enum, List.enumFrom, List.map]
    norm_num
  have hh : renderQuality [] ["id"] randHalf
      = { overall := none, overallText := "N/A", explorerColumns := [(50, 5000)] } := by
    simp only [renderQuality, displayedOverallScore, hov, explorerColumnQuality,
      randHalf, List.take, List.enum, List.enumFrom, List.map]
    norm_num
  rw [hz, hh]
  decide

/-- C5 (amended): the dashboard's overall quality score is a
deterministic function of the stored quality metrics alone — it is
identical under any two random streams and equals `overallScore` of the
metrics — while only SchemaExplorer's demo column display depends on the
random stream. -/
theorem dashboard_score_deterministic (qm : QualityMetrics)
    (cols : List String) (r₁ r₂ : ℕ → ℚ) :
    (renderQuality qm cols r₁).overall = (renderQuality qm cols r₂).overall
      ∧ (renderQuality qm cols r₁).overallText
        = (renderQuality qm cols r₂).overallText
      ∧ (renderQuality qm cols r₁).overall = overallScore qm :=
  ⟨rfl, rfl, rfl⟩

/- ── C6 ──────────────────────────────────────────────────────────────── -/

theorem dropUntilFits_append (b : Nat) (l : List ContextTable) :
    (dropUntilFits b l).2 ++ (dropUntilFits b l).1 = l := by
  induction l with
  | nil => rfl
  | cons t rest ih =>
    unfold dropUntilFits
    split
    · rfl
    · simp [ih]

theorem dropUntilFits_size (b : Nat) (l : List ContextTable) :
    totalSize (dropUntilFits b l).1 ≤ b := by
  induction l with
  | nil => simp [dropUntilFits, totalSize]
  | cons t rest ih =>
    unfold dropUntilFits
    split
    · next h => exact h
    · exact ih

/-- C6: context truncation keeps and drops only whole tables — kept and
dropped together are a permutation of the input, the kept part fits the
budget, every dropped table has a quality score at most that of every
kept table, and (for a duplicate-free table list) each table lands in
exactly one of the two sets, so no table's metadata is ever split. -/
theorem truncate_context_spec (budget : Nat) (ts : List ContextTable) :
    ((truncateContext budget ts).1 ++ (truncateContext budget ts).2).Perm ts
      ∧ totalSize (truncateContext budget ts).1 ≤ budget
      ∧ (∀ a ∈ (truncateContext budget ts).2,
          ∀ b ∈ (truncateContext budget ts).1,
            a.quality_score ≤ b.quality_score)
      ∧ (ts.Nodup →
          ∀ t ∈ ts,
            (t ∈ (truncateContext budget ts).1 ∧ t ∉ (truncateContext budget ts).2)
            ∨ (t ∈ (truncateContext budget ts).2 ∧ t ∉ (truncateContext budget ts).1)) := by
  haveI : IsTotal ContextTable (fun a b => a.quality_score ≤ b.quality_score) :=
    ⟨fun a b => le_total a.quality_score b.quality_score⟩
  haveI : IsTrans ContextTable (fun a b => a.quality_score ≤ b.quality_score) :=
    ⟨fun _ _ _ h1 h2 => le_trans h1 h2⟩
  have hperm : (List.insertionSort
      (fun a b : ContextTable => a.quality_score ≤ b.quality_score) ts).Perm ts :=
    List.perm_insertionSort _ _
  have happ : (truncateContext budget ts).2 ++ (truncateContext budget ts).1
      = List.insertionSort
          (fun a b : ContextTable => a.quality_score ≤ b.quality_score) ts :=
    dropUntilFits_append _ _
  have hsorted := List.sorted_insertionSort
    (fun a b : ContextTable => a.quality_score ≤ b.quality_score) ts
  rw [← happ] at hsorted
  have hcross := (List.pairwise_append.mp hsorted).2.2
  refine ⟨?_, dropUntilFits_size _ _, hcross, ?_⟩
  · exact List.perm_append_comm.trans (happ ▸ hperm)
  · intro hnd t ht
    have hnd2 : ((truncateContext budget ts).2 ++ (truncateContext budget ts).1).Nodup := by
      rw [happ]
      exact hperm.nodup_iff.mpr hnd
    have hdisj := (List.nodup_append.mp hnd2).2.2
    have htm : t ∈ (truncateContext budget ts).2 ++ (truncateContext budget ts).1 := by
      rw [happ]
      exact hperm.mem_iff.mpr ht
    rcases List.mem_append.mp htm with hd | hk
    · exact Or.inr ⟨hd, fun hk2 => hdisj hd hk2⟩
    · exact Or.inl ⟨hk, fun hd2 => hdisj hd2 hk⟩

/-- Witness for C6: the partition clause applied to the concrete tables
`ctxTables` with budget 100. -/
theorem truncate_context_spec_witness :
    ctxTables.Nodup
      ∧ ∀ t ∈ ctxTables,
          (t ∈ (truncateContext 100 ctxTables).1 ∧ t ∉ (truncateContext 100 ctxTables).2)
          ∨ (t ∈ (truncateContext 100 ctxTables).2 ∧ t ∉ (truncateContext 100 ctxTables).1) :=
  ⟨by simp [ctxTables],
    (truncate_context_spec 100 ctxTables).2.2.2 (by simp [ctxTables])⟩

/- ── C7 ──────────────────────────────────────────────────────────────── -/

theorem mem_okTables {results : List (String × Except String TableRun)}
    {t : String} {tr : TableRun} :
    (t, tr) ∈ okTables results ↔ (t, Except.ok tr) ∈ results := by
  unfold okTables
  simp only [List.mem_filterMap]
  constructor
  · rintro ⟨⟨a, r⟩, hmem, heq⟩
    cases r with
    | ok tr2 =>
      simp only [Option.some.injEq, Prod.mk.injEq] at heq
      rcases heq with ⟨rfl, rfl⟩
      exact hmem
    | error e => simp at heq
  · intro h
    exact ⟨(t, Except.ok tr), h, rfl⟩

theorem mem_tableErrors {results : List (String × Except String TableRun)}
    {t e : String} (h : (t, Except.error e) ∈ results) :
    (t, e) ∈ tableErrors results := by
  unfold tableErrors
  simp only [List.mem_filterMap]
  exact ⟨(t, Except.error e), h, rfl⟩

/-- C7: generation succeeds exactly when at least one table succeeds
(zero successes abort the whole run); on success, every failed table is
recorded in the per-run error log, every succeeded table's metadata and
quality data are present, and a failed column within a succeeded table is
recorded in the error log with its metrics degraded to unknown. -/
theorem generation_error_policy (db : String)
    (results : List (String × Except String TableRun)) :
    ((∃ dct, runGeneration db results = Except.ok dct)
        ↔ ∃ t tr, (t, Except.ok tr) ∈ results)
      ∧ ∀ dct, runGeneration db results = Except.ok dct →
          (∀ t e, (t, Except.error e) ∈ results → (t, e) ∈ dct.error_log)
          ∧ (∀ t tr, (t, Except.ok tr) ∈ results →
              (t, tr.meta) ∈ dct.metadata.tables
              ∧ (t, qualityFromRun tr) ∈ dct.quality_metrics)
          ∧ (∀ t tr c e, (t, Except.ok tr) ∈ results →
              (c, Except.error e) ∈ tr.colStats →
                (t ++ "." ++ c, e) ∈ dct.error_log
                ∧ ∃ l, (qualityFromRun tr).column_metrics = some l
                    ∧ (c, unknownMetrics) ∈ l) := by
  by_cases hok : (okTables results).isEmpty
  · have hrun : runGeneration db results
        = Except.error "extraction failed: zero tables succeeded" := by
      unfold runGeneration
      rw [if_pos hok]
    constructor
    · constructor
      · rintro ⟨dct, hd⟩
        rw [hrun] at hd
        exact absurd hd (by simp)
      · rintro ⟨t, tr, hmem⟩
        have : (t, tr) ∈ okTables results := mem_okTables.mpr hmem
        rw [List.isEmpty_iff.mp hok] at this
        exact absurd this (by simp)
    · intro dct hd
      rw [hrun] at hd
      exact absurd hd (by simp)
  · have hrun : runGeneration db results
        = Except.ok (assembleDictionary "dict" "conn" db 0
            { tables := (okTables results).map (fun p => (p.1, p.2.meta))
              total_tables := (okTables results).length }
            ((okTables results).map (fun p => (p.1, qualityFromRun p.2)))
            []
            (tableErrors results ++ colErrorsAll results)) := by
      unfold runGeneration
      rw [if_neg hok]
    constructor
    · constructor
      · intro _
        obtain ⟨p, hp⟩ := List.exists_mem_of_ne_nil (okTables results)
          (fun hnil => hok (by simp [hnil]))
        exact ⟨p.1, p.2, mem_okTables.mp (by simpa using hp)⟩
      · intro _
        exact ⟨_, hrun⟩
    · intro dct hd
      rw [hrun] at hd
      have hdct := (Except.ok.inj hd).symm
      subst hdct
      refine ⟨?_, ?_, ?_⟩
      · intro t e hmem
        exact List.mem_append_left _ (mem_tableErrors hmem)
      · intro t tr hmem
        constructor
        · exact List.mem_map.mpr ⟨(t, tr), mem_okTables.mpr hmem, rfl⟩
        · exact List.mem_map.mpr ⟨(t, tr), mem_okTables.mpr hmem, rfl⟩
      · intro t tr c e hmem hcol
        constructor
        · refine List.mem_append_right _ ?_
          unfold colErrorsAll
          refine List.mem_flatten.mpr ⟨columnErrors t tr.colStats,
            List.mem_map.mpr ⟨(t, tr), mem_okTables.mpr hmem, rfl⟩, ?_⟩
          unfold columnErrors
          simp only [List.mem_filterMap]
          exact ⟨(c, Except.error e), hcol, rfl⟩
        · refine ⟨_, rfl, ?_⟩
          exact List.mem_map.mpr ⟨(c, Except.error e), hcol, rfl⟩

/-- Witness for C7: applied to `genResults`, where `orders` succeeds and
`products` fails, generation succeeds. -/
theorem generation_error_policy_witness :
    ∃ dct, runGeneration "shop" genResults = Except.ok dct :=
  (generation_error_policy "shop" genResults).1.mpr
    ⟨"orders",
      { meta := emptyTableMeta
        colStats := [("qty", Except.ok ⟨0, 5⟩),
                     ("price", Except.error "sampling timeout")] },
      List.mem_cons_self _ _⟩

/- ── C8 ──────────────────────────────────────────────────────────────── -/

theorem foldl_mdRow (cols : List MdColumn) (acc : String) :
    cols.foldl (fun md c => md ++ mdRow c) acc
      = acc ++ strConcat (cols.map mdRow) := by
  induction cols generalizing acc with
  | nil => simp [strConcat]
  | cons c rest ih =>
    simp only [List.foldl_cons, List.map_cons, ih, strConcat, List.foldr_cons]
    rw [String.append_assoc]

theorem exportMarkdown_go (data : List (String × List MdColumn)) (acc : String) :
    data.foldl (fun md t =>
        (t.2.foldl (fun md c => md ++ mdRow c)
          (md ++ "## " ++ t.1 ++ "\n\n" ++ mdTableHeader)) ++ "\n") acc
      = acc ++ strConcat (data.map (fun t =>
          "## " ++ t.1 ++ "\n\n" ++ mdTableHeader
            ++ strConcat (t.2.map mdRow) ++ "\n")) := by
  induction data generalizing acc with
  | nil => simp [strConcat]
  | cons t rest ih =>
    rw [List.foldl_cons, foldl_mdRow, ih]
    simp only [List.map_cons, strConcat, List.foldr_cons, String.append_assoc]

/-- C8: the markdown export is the fixed preamble followed by the
concatenation, in order, of exactly one section per table; each section
is a `## <table name>` heading followed by exactly one markdown column
table (fixed header row and separator) with exactly one row per column
reporting its name, type, nullability (Yes/No) and description. -/
theorem export_markdown_sections (data : List (String × List MdColumn)) :
    exportMarkdown data
        = "# Data Dictionary\n\n"
          ++ strConcat (data.map (fun t =>
              "## " ++ t.1 ++ "\n\n" ++ mdTableHeader
                ++ strConcat (t.2.map mdRow) ++ "\n"))
      ∧ (data.map (fun t =>
            "## " ++ t.1 ++ "\n\n" ++ mdTableHeader
              ++ strConcat (t.2.map mdRow) ++ "\n")).length = data.length
      ∧ ∀ t ∈ data, (t.2.map mdRow).length = t.2.length :=
  ⟨exportMarkdown_go data "# Data Dictionary\n\n", List.length_map _ _,
    fun _ _ => List.length_map _ _⟩

/- ── C9 ──────────────────────────────────────────────────────────────── -/

/-- C9: the dashboard's overall quality score is the arithmetic mean of
the per-table scores that are present, rounded to the nearest integer;
tables without a numeric score (null entries or missing scores) are
excluded from the mean, and when no score is present the overall score is
absent and rendered as "N/A" rather than zero. -/
theorem overall_score_mean :
    (∀ qm : QualityMetrics, tableScores qm = [] →
        overallScore qm = none ∧ displayedOverallScore qm = "N/A")
      ∧ (∀ qm : QualityMetrics, tableScores qm ≠ [] →
          overallScore qm
            = some (round ((tableScores qm).sum / ((tableScores qm).length : ℚ))))
      ∧ (∀ (qm : QualityMetrics) (name : String),
          overallScore ((name, none) :: qm) = overallScore qm)
      ∧ (∀ (qm : QualityMetrics) (name : String) (tq : TableQualityData),
          tq.overall_quality_score = none →
            overallScore ((name, some tq) :: qm) = overallScore qm) := by
  refine ⟨?_, ?_, ?_, ?_⟩
  · intro qm h
    have h0 : overallScore qm = none := by
      unfold overallScore
      rw [h]
      simp
    refine ⟨h0, ?_⟩
    unfold displayedOverallScore
    rw [h0]
  · intro qm h
    unfold overallScore
    rw [if_pos (List.length_pos.mpr h)]
  · intro qm name
    have h : tableScores ((name, none) :: qm) = tableScores qm := by
      unfold tableScores
      simp
    unfold overallScore
    rw [h]
  · intro qm name tq htq
    have h : tableScores ((name, some tq) :: qm) = tableScores qm := by
      unfold tableScores
      simp [htq]
    unfold overallScore
    rw [h]

/-- Witness for C9: applied to `qmTwoTables` (scores 80 and 91 plus one
null entry), whose score list is non-empty. -/
theorem overall_score_mean_witness :
    tableScores qmTwoTables ≠ []
      ∧ overallScore qmTwoTables
        = some (round ((tableScores qmTwoTables).sum
            / ((tableScores qmTwoTables).length : ℚ))) :=
  ⟨by simp [tableScores, qmTwoTables],
    overall_score_mean.2.1 qmTwoTables (by simp [tableScores, qmTwoTables])⟩

/- ── C10 ─────────────────────────────────────────────────────────────── -/

/-- C10: with no dictionary selected neither chat surface issues a
chat-query request — each instead appends its fixed assistant guidance
message — and any request either surface does issue carries a non-empty
`dictionary_id`. -/
theorem chat_no_dictionary_guard :
    (∀ (st : CIState) (msgId : String), st.selectedDictId = "" →
        (ciHandleSendMessage st msgId).2 = none)
      ∧ (∀ (st : CIState) (msgId : String), st.selectedDictId = "" →
          st.inputValue.trim ≠ "" → st.isLoading = false →
          (ciHandleSendMessage st msgId).1
            = st.messages
              ++ [{ id := msgId, role := "assistant", content := ciGuidance }])
      ∧ (∀ (st : FABState) (m1 m2 : String), noDict st.dictionaryId = true →
          (fabHandleSendMessage st m1 m2).2 = none)
      ∧ (∀ (st : FABState) (m1 m2 : String), noDict st.dictionaryId = true →
          st.inputValue.trim ≠ "" → st.isLoading = false →
          (fabHandleSendMessage st m1 m2).1
            = st.messages
              ++ [{ id := m1, role := "user", content := st.inputValue }]
              ++ [{ id := m2, role := "assistant", content := fabGuidance }])
      ∧ (∀ (st : CIState) (msgId : String) (q : ChatQuery),
          (ciHandleSendMessage st msgId).2 = some q → q.dictionary_id ≠ "")
      ∧ (∀ (st : FABState) (m1 m2 : String) (q : ChatQuery),
          (fabHandleSendMessage st m1 m2).2 = some q → q.dictionary_id ≠ "") := by
  refine ⟨?_, ?_, ?_, ?_, ?_, ?_⟩
  · intro st msgId h
    unfold ciHandleSendMessage
    by_cases h1 : st.inputValue.trim = "" ∨ st.isLoading
    · rw [if_pos h1]
    · rw [if_neg h1, if_pos h]
  · intro st msgId h h2 h3
    unfold ciHandleSendMessage
    rw [if_neg (by simp [h2, h3]), if_pos h]
  · intro st m1 m2 h
    unfold fabHandleSendMessage
    by_cases h1 : st.inputValue.trim = "" ∨ st.isLoading
    · rw [if_pos h1]
    · rw [if_neg h1, if_pos h]
  · intro st m1 m2 h h2 h3
    unfold fabHandleSendMessage
    rw [if_neg (by simp [h2, h3]), if_pos h]
  · intro st msgId q h
    unfold ciHandleSendMessage at h
    by_cases h1 : st.inputValue.trim = "" ∨ st.isLoading
    · rw [if_pos h1] at h
      exact absurd h (by simp)
    · rw [if_neg h1] at h
      by_cases h2 : st.selectedDictId = ""
      · rw [if_pos h2] at h
        exact absurd h (by simp)
      · rw [if_neg h2] at h
        have hq := Option.some.inj (by simpa using h)
        rw [← hq]
        exact h2
  · intro st m1 m2 q h
    unfold fabHandleSendMessage at h
    by_cases h1 : st.inputValue.trim = "" ∨ st.isLoading
    · rw [if_pos h1] at h
      exact absurd h (by simp)
    · rw [if_neg h1] at h
      by_cases h2 : noDict st.dictionaryId = true
      · rw [if_pos h2] at h
        exact absurd h (by simp)
      · rw [if_neg h2] at h
        have hq := Option.some.inj (by simpa using h)
        rw [← hq]
        cases hd : st.dictionaryId with
        | none =>
          rw [hd] at h2
          exact absurd rfl h2
        | some s =>
          intro hs
          have hs2 : s = "" := hs
          refine h2 ?_
          rw [hd, hs2]
          rfl

/-- Witness for C10: the guard theorem applied to the concrete
no-dictionary states. -/
theorem chat_no_dictionary_guard_witness :
    ciNoDictState.selectedDictId = ""
      ∧ (ciHandleSendMessage ciNoDictState "2").2 = none
      ∧ noDict fabNoDictState.dictionaryId = true
      ∧ (fabHandleSendMessage fabNoDictState "2" "3").2 = none :=
  ⟨rfl, chat_no_dictionary_guard.1 ciNoDictState "2" rfl, rfl,
    chat_no_dictionary_guard.2.2.1 fabNoDictState "2" "3" rfl⟩

end DictAgent
